import Mathlib

/-!
Shallow embedding of the content-verification pipeline of `src/main.py`
(FastAPI service: `/api/verify-image`, `/api/verify-text`, `/api/verify-link`).

Pure logic (URL classification, verdict validation, provider error mapping)
is translated directly from the Python source.  Effects that cross the
system boundary (the httpx call to the inference provider, the Supadata
extraction call, the Reality Defender upload/poll, `json.loads` of provider
output) are modelled as oracle outcomes supplied in an environment value;
each endpoint body is then a total function from that environment to the
HTTP response it produces.
-/

/-- JSON values, as decoded by Python's `json.loads` (objects are dicts with
unique keys; we model them as association lists looked up by first match). -/
inductive Json where
  | str (s : String)
  | num (n : Int)
  | bool (b : Bool)
  | null
  | arr (elems : List Json)
  | obj (fields : List (String × Json))

/-- Fields of a decoded JSON object (a Python dict produced by `json.loads`). -/
abbrev JsonObj := List (String × Json)

/-- Python's `parsed.get(key)` on a dict: the value when the key is present. -/
def jsonLookup (fields : JsonObj) (k : String) : Option Json :=
  fields.lookup k

/-- An HTTP error response, as raised by `HTTPException(status_code, detail)`. -/
structure HTTPError where
  status : Nat
  detail : String
  deriving DecidableEq

/-- Error kinds of the verdict validation block (`src/main.py` lines 200-215
and the identical block at lines 346-356); one constructor per raise site. -/
inductive ValidationError where
  | malformedJson
  | missingField (name : String)
  | invalidDecision
  | sourcesInvalid
  deriving DecidableEq

/-- Status code and detail carried by each validation raise site in
`verify_text_disinfo` (`src/main.py` lines 204, 209, 211, 213). -/
def ValidationError.toHTTP : ValidationError → HTTPError
  | .malformedJson => ⟨502, "Model zwrócił niepoprawny JSON"⟩
  | .missingField k => ⟨502, "Brak wymaganego pola: " ++ k⟩
  | .invalidDecision => ⟨502, "Pole 'decision' musi być 'tak' lub 'nie'"⟩
  | .sourcesInvalid => ⟨502, "Pole 'sources' musi być listą (max 10)"⟩

/-- Python's `parsed.get("decision") not in ("tak", "nie")`, negated: a JSON
value equals the Python string `"tak"`/`"nie"` exactly when it is that JSON
string (`src/main.py` line 210). -/
def decisionAccepted : Json → Bool
  | .str s => s == "tak" || s == "nie"
  | _ => false

/-- Hard schema check of `src/main.py` lines 207-215 (and, identically,
lines 348-356): the `for key in [...]` loop over the four literal required
fields is unrolled into the four presence checks in loop order, followed by
the decision-enum check and the combined sources check.  On success the
parsed object is returned unchanged. -/
def validateObj (fields : JsonObj) : Except ValidationError Json :=
  if (jsonLookup fields "decision").isNone then .error (.missingField "decision")
  else if (jsonLookup fields "summary").isNone then .error (.missingField "summary")
  else if (jsonLookup fields "ai_explanatation").isNone then
    .error (.missingField "ai_explanatation")
  else if (jsonLookup fields "sources").isNone then .error (.missingField "sources")
  else if !decisionAccepted ((jsonLookup fields "decision").getD .null) then
    .error .invalidDecision
  else
    match jsonLookup fields "sources" with
    | some (.arr l) => if l.length > 10 then .error .sourcesInvalid else .ok (.obj fields)
    | _ => .error .sourcesInvalid

/-- Outcome of `json.loads(content)` on the inference provider's message
content: either a `JSONDecodeError` or a decoded JSON object.  (The claims
under verification only exercise these two outcomes; a parse to a non-object
JSON value is not modelled.) -/
inductive ContentParse where
  | malformed
  | objVal (fields : JsonObj)

/-- Parsing plus validation of the provider's message content, as in
`verify_text_disinfo` (`src/main.py` lines 201-215): a `JSONDecodeError`
becomes the malformed-JSON error, otherwise the object is hard-validated. -/
def validateContent : ContentParse → Except ValidationError Json
  | .malformed => .error .malformedJson
  | .objVal fields => validateObj fields

/-- Conditions under which the four schema checks of `validateObj` pass,
stated the way the spec's VerdictSchema states them (all four required
fields present, accepted decision token, `sources` a sequence of length at
most 10). -/
def verdictChecks (fields : JsonObj) : Prop :=
  (∃ d, jsonLookup fields "decision" = some d ∧ decisionAccepted d = true) ∧
  (jsonLookup fields "summary").isSome = true ∧
  (jsonLookup fields "ai_explanatation").isSome = true ∧
  (∃ l, jsonLookup fields "sources" = some (.arr l) ∧ l.length ≤ 10)

/-- Python's `s.split(c)` for a one-character separator, on character
lists (structurally recursive so that concrete inputs evaluate). -/
def splitChar (c : Char) : List Char → List (List Char)
  | [] => [[]]
  | x :: xs =>
    let r := splitChar c xs
    if x == c then [] :: r
    else
      match r with
      | [] => [[x]]
      | y :: ys => (x :: y) :: ys

/-- Python's `s.split(c)` for a one-character separator. -/
def pySplit (s : String) (c : Char) : List String :=
  (splitChar c s.toList).map (fun l => ⟨l⟩)

/-- Characters before and (when the separator occurs) after the first
occurrence of `c`. -/
def breakAtFirst (c : Char) : List Char → List Char × Option (List Char)
  | [] => ([], none)
  | x :: xs =>
    if x == c then ([], some xs)
    else
      let (b, a) := breakAtFirst c xs
      (x :: b, a)

/-- Python's `s.split(c, 1)`: the part before the first occurrence of the
separator and the remainder ("" when the separator does not occur). -/
def splitFirst (s : String) (c : Char) : String × String :=
  match breakAtFirst c s.toList with
  | (before, none) => (⟨before⟩, "")
  | (before, some after) => (⟨before⟩, ⟨after⟩)

/-- Python's `str.lower()` (ASCII case folding suffices for the hosts the
code compares against). -/
def pyLower (s : String) : String :=
  ⟨s.toList.map Char.toLower⟩

/-- Python's `s.startswith(pre)`. -/
def pyStartsWith (s pre : String) : Bool :=
  pre.toList.isPrefixOf s.toList

/-- Python's `str.strip()` with no argument: whitespace removed from both
ends. -/
def pyStrip (s : String) : String :=
  ⟨((s.toList.dropWhile Char.isWhitespace).reverse.dropWhile Char.isWhitespace).reverse⟩

/-- Characters at which `urllib.parse.urlsplit` stops reading the netloc. -/
def netlocDelim (c : Char) : Bool :=
  c == '/' || c == '?' || c == '#'

/-- Splits a string at the first netloc delimiter (`/`, `?` or `#`). -/
def takeNetloc (s : List Char) : String × String :=
  (⟨s.takeWhile (fun c => !netlocDelim c)⟩, ⟨s.dropWhile (fun c => !netlocDelim c)⟩)

/-- Characters a URL scheme may contain after its leading letter. -/
def isSchemeChar (c : Char) : Bool :=
  c.isAlphanum || c == '+' || c == '-' || c == '.'

/-- Strips a leading `scheme:` from a URL the way `urllib.parse.urlsplit`
does (a scheme is a leading letter followed by letters, digits, `+`, `-`,
`.`, up to a colon). -/
def stripScheme (u : String) : String :=
  match breakAtFirst ':' u.toList with
  | (_, none) => u
  | (before, some after) =>
    if before ≠ [] && (before.headD ' ').isAlpha && before.all isSchemeChar
    then ⟨after⟩ else u

/-- Components of a parsed URL that `verify_link` inspects. -/
structure ParsedUrl where
  netloc : String
  path : String
  query : String

/-- Model of `urllib.parse.urlparse` restricted to the components the code
reads (netloc, path, query): strip the scheme; if the rest starts with `//`,
the netloc runs to the first `/`, `?` or `#`; the fragment is everything
after the first `#`; the query everything after the first `?` before the
fragment. -/
def pyUrlparse (u : String) : ParsedUrl :=
  let rest := stripScheme u
  let (netloc, rest) :=
    if pyStartsWith rest "//" then takeNetloc (rest.toList.drop 2) else ("", rest)
  let (rest, _) := splitFirst rest '#'
  let (path, query) := splitFirst rest '?'
  ⟨netloc, path, query⟩

/-- Model of `urllib.parse.parse_qsl` with its default arguments: split the
query on `&`, drop empty chunks, drop chunks with no `=` and chunks whose
value is empty (blank values are not kept), split each chunk at the first
`=`, and turn `+` into a space.  Percent-escapes are not decoded; the
theorems below only quantify over escape-free queries. -/
def parseQsl (qs : String) : List (String × String) :=
  (pySplit qs '&').filterMap fun nv =>
    if nv == "" then none
    else if nv.toList.any (fun c => c == '=') then
      let (n, v) := splitFirst nv '='
      if v == "" then none
      else some (⟨n.toList.map (fun c => if c == '+' then ' ' else c)⟩,
                 ⟨v.toList.map (fun c => if c == '+' then ' ' else c)⟩)
    else none

/-- Python's `parse_qs(q).get(key, [None])[0]`: the first value bound to
`key` in the query string, if any. -/
def firstQueryValue (qs : String) (key : String) : Option String :=
  (((parseQsl qs).filter (fun p => p.1 == key)).head?).map (·.2)

/-- Hosts recognized in the first branch of `_extract_youtube_video_id`
(`src/main.py` line 245). -/
def youtubeComHosts : List String := ["www.youtube.com", "youtube.com", "m.youtube.com"]

/-- Translation of `_extract_youtube_video_id` (`src/main.py` lines 241-256):
lowercase the parsed netloc; on a youtube.com host take the `v` query
parameter of a `/watch` path (`or None` turns an empty value into `none`) or
the third `/`-segment of a `/shorts/` path (which may be the empty string);
on `youtu.be` take the first path segment, empty mapping to `none`; any
other host yields `none`.  The function is total, matching the enclosing
`try/except` that returns `None` on any parse irregularity. -/
def extract_youtube_video_id (u : String) : Option String :=
  let parsed := pyUrlparse u
  let host := pyLower parsed.netloc
  if youtubeComHosts.contains host then
    if pyStartsWith parsed.path "/watch" then
      match firstQueryValue parsed.query "v" with
      | some v => if v == "" then none else some v
      | none => none
    else if pyStartsWith parsed.path "/shorts/" then
      (pySplit parsed.path '/').get? 2
    else none
  else if host == "youtu.be" then
    let first := (pySplit ⟨parsed.path.toList.dropWhile (fun c => c == '/')⟩ '/').headD ""
    if first == "" then none else some first
  else none

/-- Which Supadata call `verify_link` makes for a URL (`src/main.py` lines
261-267): the transcript endpoint with the extracted video id when
`if video_id:` is truthy (non-`None` and non-empty), else the web-scrape
endpoint with the full URL. -/
inductive FetchTarget where
  | transcript (videoId : String)
  | scrape (url : String)

/-- Python truthiness of an optional string (`if video_id:` at
`src/main.py` line 262, `if not request_id` at line 82): `None` and the
empty string are falsy. -/
def pyTruthy : Option String → Bool
  | none => false
  | some v => !(v == "")

/-- Dispatch of `verify_link` between the two Supadata calls
(`src/main.py` lines 261-267). -/
def fetchTarget (url : String) : FetchTarget :=
  match extract_youtube_video_id url with
  | some v => if v == "" then .scrape url else .transcript v
  | none => .scrape url

/-- Message table for Supadata error codes (`src/main.py` lines 274-282). -/
def supadataMessage : Nat → Option String
  | 400 => some "Invalid Request: żądanie jest nieprawidłowe lub błędnie sformatowane"
  | 401 => some "Unauthorized: sprawdź klucz API"
  | 402 => some "Upgrade Required: funkcja niedostępna w Twoim planie"
  | 404 => some "Not Found: nie znaleziono zasobu"
  | 429 => some "Limit Exceeded: przekroczono dozwolony limit"
  | 206 => some "Transcript Unavailable: brak transkrypcji dla tego filmu"
  | 500 => some "Internal Error: błąd wewnętrzny"
  | _ => none

/-- The `except SupadataError` handler (`src/main.py` lines 271-284): the
detail is the mapped message, defaulting to `"Supadata error: "` plus the
exception's text when the code is absent or unmapped; the HTTP status is
`int(code or 502)` — the provider's own code when present and non-zero,
502 otherwise. -/
def supadataErrorResponse (code : Option Nat) (raw : String) : HTTPError :=
  { status := match code with
      | none => 502
      | some 0 => 502
      | some c => c
    detail := (code.bind supadataMessage).getD ("Supadata error: " ++ raw) }

/-- Outcome of the Supadata content fetch, as seen by `verify_link`:
a successful response with its (possibly `None`) `content` attribute, a
`SupadataError` with its optional numeric status and message, or any other
exception. -/
inductive SupadataOutcome where
  | ok (content : Option String)
  | err (code : Option Nat) (msg : String)
  | exn (msg : String)

/-- Content-acquisition block of `verify_link` (`src/main.py` lines
260-288): on success, `content or ""` is rejected with 422 when empty after
`strip()`; a `SupadataError` is mapped through the message table; any other
exception surfaces as 502. -/
def fetchLinkContent : SupadataOutcome → Except HTTPError String
  | .ok c =>
    let content := c.getD ""
    if pyStrip content == "" then
      .error ⟨422, "Nie udało się wydobyć treści z podanego URL."⟩
    else .ok content
  | .err code msg => .error (supadataErrorResponse code msg)
  | .exn msg => .error ⟨502, "Błąd Supadata: " ++ msg⟩

/-- The `additionalProperties` entry of the JSON schema the code sends to
the inference provider (`src/main.py` lines 164 and 311): extra fields are
forbidden in the provider-side contract. -/
def verdictSchemaAdditionalProperties : Bool := false

/-- Outcome of the httpx call to the xAI chat-completions endpoint, as seen
by `verify_text_disinfo`: either an exception (network failure, `resp.json()`
decode failure, ...) caught by the generic handler, or a response with its
status code, body text, the string produced by the defaulted
`data.get("choices", [{}])[0].get("message", {}).get("content", "")` chain,
and the result of `json.loads` on that string. -/
inductive XaiOutcome where
  | exn (msg : String)
  | ok (statusCode : Nat) (text : String) (content : String) (parse : ContentParse)

/-- Environment of one `/api/verify-text` request: the `XAI_API_KEY`
environment variable and the provider-call outcome. -/
structure VerifyTextEnv where
  apiKey : Option String
  outcome : XaiOutcome

/-- Translation of the `verify_text_disinfo` endpoint body (`src/main.py`
lines 119-220): missing credential is 500; a provider status of 400 or more
re-raises with that same status and the provider body; empty message content
is 502; then the content is parsed and hard-validated, validation failures
carrying the 502 messages of `ValidationError.toHTTP`; any other exception
is a generic 502. -/
def verify_text_disinfo (env : VerifyTextEnv) : Except HTTPError Json :=
  match env.apiKey with
  | none => .error ⟨500, "Brak konfiguracji: ustaw XAI_API_KEY"⟩
  | some _ =>
    match env.outcome with
    | .exn m => .error ⟨502, "Błąd podczas analizy: " ++ m⟩
    | .ok status text content parse =>
      if status ≥ 400 then .error ⟨status, "xAI error: " ++ text⟩
      else if content == "" then .error ⟨502, "Pusta odpowiedź modelu xAI"⟩
      else
        match validateContent parse with
        | .error e => .error e.toHTTP
        | .ok j => .ok j

/-- Outcome of `rd.upload(file_path=tmp_path)`: an exception, or the
response's optional `request_id` entry. -/
inductive UploadOutcome where
  | exn (msg : String)
  | ok (requestId : Option String)

/-- Result dict returned by `rd.get_result` when it completes: the code
reads `status`, `score` and `models` (a list of dicts under the provider's
contract; a response of any other shape raises in Python and is modelled by
`ResultOutcome.exn`). -/
structure RDResult where
  status : Option Json
  score : Option Json
  models : List JsonObj

/-- Outcome of `asyncio.wait_for(rd.get_result(request_id), timeout=90.0)`:
completion, `asyncio.TimeoutError` when the 90-second ceiling is exceeded,
or any other exception. -/
inductive ResultOutcome where
  | ok (result : RDResult)
  | timeout
  | exn (msg : String)

/-- The polling ceiling passed to `asyncio.wait_for` (`src/main.py`
line 86), in seconds. -/
def rdPollTimeoutSeconds : Nat := 90

/-- Environment of one `/api/verify-image` request: the declared
content type, the `REALITY_DEFENDER_API_KEY` variable, the outcome of
writing the temporary file, and the two provider-call outcomes. -/
structure VerifyImageEnv where
  contentType : Option String
  apiKey : Option String
  fileWrite : Except String Unit
  upload : UploadOutcome
  result : ResultOutcome

/-- Normalization of a completed detection result (`src/main.py` lines
88-102): the assigned request id plus the raw `status`, `score` and
per-model breakdown (each model's `name`, `status`, `score`, `metadata`,
absent keys becoming `None`). -/
def normalizeRDResult (requestId : String) (r : RDResult) : Json :=
  .obj [("request_id", .str requestId),
        ("status", r.status.getD .null),
        ("score", r.score.getD .null),
        ("models", .arr (r.models.map fun m =>
          .obj [("name", (jsonLookup m "name").getD .null),
                ("status", (jsonLookup m "status").getD .null),
                ("score", (jsonLookup m "score").getD .null),
                ("metadata", (jsonLookup m "metadata").getD .null)]))]

/-- Observable outcome of one `/api/verify-image` request: the HTTP
response produced and whether the transient upload file was removed by the
`finally` block (`src/main.py` lines 110-115; `False` also covers the paths
on which no file was written or `tmp_path` was never assigned). -/
structure ImageRequestOutcome where
  response : Except HTTPError Json
  fileRemoved : Bool

/-- Translation of the `verify_image_with_reality_defender` endpoint body
(`src/main.py` lines 54-115): non-image content type is 415 and missing
credential 500, both before the file is written; a failing write is 500
with `tmp_path` unassigned, so the `finally` block does not remove the
file; once the `try` block is entered, every exit path runs the `finally`
and removes the file — upload exception (502), missing `request_id` (502),
poll timeout (504, `asyncio.TimeoutError` from the 90-second
`asyncio.wait_for`), any other exception (502), and success. -/
def verify_image_with_reality_defender (env : VerifyImageEnv) : ImageRequestOutcome :=
  let contentTypeOk :=
    match env.contentType with
    | none => false
    | some ct => !(ct == "") && pyStartsWith ct "image/"
  if !contentTypeOk then
    ⟨.error ⟨415, "Nieobsługiwany typ pliku: " ++
        (match env.contentType with
         | none => "brak"
         | some ct => if ct == "" then "brak" else ct) ++ " (wymagane image/*)"⟩, false⟩
  else
    match env.apiKey with
    | none => ⟨.error ⟨500, "Brak konfiguracji: ustaw REALITY_DEFENDER_API_KEY"⟩, false⟩
    | some _ =>
      match env.fileWrite with
      | .error m => ⟨.error ⟨500, "Nie udało się zapisać pliku: " ++ m⟩, false⟩
      | .ok _ =>
        match env.upload with
        | .exn m => ⟨.error ⟨502, "Błąd Reality Defender: " ++ m⟩, true⟩
        | .ok requestId =>
          if !pyTruthy requestId then
            ⟨.error ⟨502, "Reality Defender nie zwrócił request_id"⟩, true⟩
          else
            match env.result with
            | .timeout =>
              ⟨.error ⟨504, "Przekroczono czas oczekiwania na wynik Reality Defender"⟩, true⟩
            | .exn m => ⟨.error ⟨502, "Błąd Reality Defender: " ++ m⟩, true⟩
            | .ok r => ⟨.ok (normalizeRDResult (requestId.getD "") r), true⟩

/-- Verdict object with the given decision value and unremarkable remaining
fields, used as a concrete test input. -/
def mkVerdict (decision : Json) : JsonObj :=
  [("decision", decision), ("summary", Json.str "s"),
   ("ai_explanatation", Json.str "e"), ("sources", Json.arr [])]

/-- Concrete inference response carrying a fifth field beyond the four
required ones. -/
def extraFieldVerdict : JsonObj :=
  [("decision", Json.str "tak"), ("summary", Json.str "s"),
   ("ai_explanatation", Json.str "e"), ("sources", Json.arr []),
   ("extra", Json.num 1)]

theorem validateObj_ok_iff (fields : JsonObj) (j : Json) :
    validateObj fields = Except.ok j ↔ (j = Json.obj fields ∧ verdictChecks fields) := by
  unfold validateObj verdictChecks
  rcases hd : jsonLookup fields "decision" with _ | d
  · simp [hd]
  · rcases hs : jsonLookup fields "summary" with _ | s
    · simp [hd, hs]
    · rcases ha : jsonLookup fields "ai_explanatation" with _ | a
      · simp [hd, hs, ha]
      · rcases hsrc : jsonLookup fields "sources" with _ | src
        · simp [hd, hs, ha, hsrc]
        · by_cases hacc : decisionAccepted d = true
          · rcases src with s' | n | b | _ | l | o <;>
              simp [hd, hs, ha, hsrc, hacc]
            by_cases hl : 10 < l.length
            · simp [hl]
            · simp [hl, eq_comm]
              omega
          · simp [hd, hs, ha, hsrc, hacc]

/-- Status code carried by every validation raise site (they all use 502). -/
theorem ValidationError.toHTTP_status (e : ValidationError) : e.toHTTP.status = 502 := by
  cases e <;> rfl

/-- Claim C2: every JSON object satisfying the verdict schema (all four
required fields present, decision among the two accepted tokens, `sources`
a sequence of at most 10 entries) validates successfully and is returned
with every field's content unchanged; conversely, a verdict is returned
only when all checks pass, and it is always the full validated object,
never a partial one. -/
theorem C2_validator_roundtrip (fields : JsonObj) :
    (verdictChecks fields → validateObj fields = Except.ok (Json.obj fields)) ∧
    (∀ j, validateObj fields = Except.ok j → j = Json.obj fields ∧ verdictChecks fields) := by
  constructor
  · intro h
    exact (validateObj_ok_iff fields (Json.obj fields)).2 ⟨rfl, h⟩
  · intro j h
    exact (validateObj_ok_iff fields j).1 h

/-- Closed witness for C2 at a concrete schema-conforming object. -/
theorem C2_validator_roundtrip_witness :
    validateObj (mkVerdict (Json.str "nie")) =
      Except.ok (Json.obj (mkVerdict (Json.str "nie"))) :=
  (C2_validator_roundtrip (mkVerdict (Json.str "nie"))).1
    ⟨⟨Json.str "nie", rfl, rfl⟩, rfl, rfl, ⟨[], rfl, by decide⟩⟩

/-- Claim C10: the decision field is accepted exactly when it is the JSON
string `"tak"` or `"nie"` (lowercase Polish tokens); the English tokens
`"yes"` and `"no"` of the spec's schema description and the cased variant
`"Tak"` are rejected as an invalid decision, while `"tak"`/`"nie"`
validate.  Both textual-verification endpoints run this same check
(`src/main.py` lines 210-211 and 351-352). -/
theorem C10_decision_enum :
    (∀ v : Json, decisionAccepted v = true ↔ (v = Json.str "tak" ∨ v = Json.str "nie")) ∧
    validateObj (mkVerdict (Json.str "yes")) = Except.error ValidationError.invalidDecision ∧
    validateObj (mkVerdict (Json.str "no")) = Except.error ValidationError.invalidDecision ∧
    validateObj (mkVerdict (Json.str "Tak")) = Except.error ValidationError.invalidDecision ∧
    validateObj (mkVerdict (Json.str "tak")) = Except.ok (Json.obj (mkVerdict (Json.str "tak"))) ∧
    validateObj (mkVerdict (Json.str "nie")) = Except.ok (Json.obj (mkVerdict (Json.str "nie"))) := by
  refine ⟨fun v => ?_, rfl, rfl, rfl, rfl, rfl⟩
  cases v <;> simp [decisionAccepted]

/-- Closed witness for C10: the accepted-token criterion applied at the
concrete value `"tak"`. -/
theorem C10_decision_enum_witness : decisionAccepted (Json.str "tak") = true :=
  (C10_decision_enum.1 (Json.str "tak")).2 (Or.inl rfl)

/-- Counterexample to claim C5: an inference response object carrying a
fifth field `"extra"` outside the four required ones is not rejected by the
client-side validation — it validates successfully and is returned as the
verdict, extra field included. -/
theorem C5_counterexample :
    jsonLookup extraFieldVerdict "extra" = some (Json.num 1) ∧
    validateObj extraFieldVerdict = Except.ok (Json.obj extraFieldVerdict) :=
  ⟨rfl, rfl⟩

/-- Claim C5 as amended: client-side validation never inspects fields
outside the four required ones — its verdict-or-error outcome depends only
on those four lookups, so an object with additional fields passes whenever
its required fields pass, and is returned unchanged with the additional
fields retained.  The no-additional-fields constraint lives only in the
`additionalProperties: false` schema sent to the provider. -/
theorem C5_amended_extra_fields_pass (f1 f2 : JsonObj)
    (h : ∀ k, k ∈ ["decision", "summary", "ai_explanatation", "sources"] →
      jsonLookup f1 k = jsonLookup f2 k) :
    verdictSchemaAdditionalProperties = false ∧
    (validateObj f1 = Except.ok (Json.obj f1) ↔ validateObj f2 = Except.ok (Json.obj f2)) := by
  have h1 := h "decision" (by simp)
  have h2 := h "summary" (by simp)
  have h3 := h "ai_explanatation" (by simp)
  have h4 := h "sources" (by simp)
  refine ⟨rfl, ?_⟩
  rw [validateObj_ok_iff, validateObj_ok_iff]
  unfold verdictChecks
  rw [h1, h2, h3, h4]
  simp

/-- Closed witness for C5's amended theorem: an object with one extra field
versus the same object without it. -/
theorem C5_amended_extra_fields_pass_witness :
    validateObj (mkVerdict (Json.str "tak")) = Except.ok (Json.obj (mkVerdict (Json.str "tak"))) ↔
      validateObj extraFieldVerdict = Except.ok (Json.obj extraFieldVerdict) :=
  (C5_amended_extra_fields_pass (mkVerdict (Json.str "tak")) extraFieldVerdict
    (by intro k hk; simp at hk; rcases hk with rfl | rfl | rfl | rfl <;> rfl)).2

/-- Claim C8: the validator applies its checks in a fixed order with the
first failure winning — unparseable JSON fails as malformed JSON; then each
of the four required fields, in the loop order decision, summary,
ai_explanatation, sources, fails as a missing-field error naming that field
when absent (regardless of later checks); then a decision outside the two
accepted tokens (e.g. `"maybe"`) fails as invalid decision (regardless of
the sources value); then a sources value that is not a sequence (e.g. a
string), or a sequence of more than 10 entries (e.g. 11), fails with the
sources error of the combined list/length check. -/
theorem C8_validator_order :
    validateContent ContentParse.malformed = Except.error ValidationError.malformedJson ∧
    (∀ fields : JsonObj, jsonLookup fields "decision" = none →
      validateObj fields = Except.error (ValidationError.missingField "decision")) ∧
    (∀ fields : JsonObj, (jsonLookup fields "decision").isSome = true →
      jsonLookup fields "summary" = none →
      validateObj fields = Except.error (ValidationError.missingField "summary")) ∧
    (∀ fields : JsonObj, (jsonLookup fields "decision").isSome = true →
      (jsonLookup fields "summary").isSome = true →
      jsonLookup fields "ai_explanatation" = none →
      validateObj fields = Except.error (ValidationError.missingField "ai_explanatation")) ∧
    (∀ fields : JsonObj, (jsonLookup fields "decision").isSome = true →
      (jsonLookup fields "summary").isSome = true →
      (jsonLookup fields "ai_explanatation").isSome = true →
      jsonLookup fields "sources" = none →
      validateObj fields = Except.error (ValidationError.missingField "sources")) ∧
    (∀ fields : JsonObj, (jsonLookup fields "decision").isSome = true →
      (jsonLookup fields "summary").isSome = true →
      (jsonLookup fields "ai_explanatation").isSome = true →
      (jsonLookup fields "sources").isSome = true →
      decisionAccepted ((jsonLookup fields "decision").getD Json.null) = false →
      validateObj fields = Except.error ValidationError.invalidDecision) ∧
    validateObj (mkVerdict (Json.str "maybe")) = Except.error ValidationError.invalidDecision ∧
    (∀ fields : JsonObj, ∀ v : Json, (jsonLookup fields "decision").isSome = true →
      (jsonLookup fields "summary").isSome = true →
      (jsonLookup fields "ai_explanatation").isSome = true →
      decisionAccepted ((jsonLookup fields "decision").getD Json.null) = true →
      jsonLookup fields "sources" = some v →
      (∀ l, v ≠ Json.arr l) →
      validateObj fields = Except.error ValidationError.sourcesInvalid) ∧
    validateObj [("decision", Json.str "tak"), ("summary", Json.str "s"),
      ("ai_explanatation", Json.str "e"), ("sources", Json.str "not-a-list")] =
      Except.error ValidationError.sourcesInvalid ∧
    (∀ fields : JsonObj, ∀ l : List Json, (jsonLookup fields "decision").isSome = true →
      (jsonLookup fields "summary").isSome = true →
      (jsonLookup fields "ai_explanatation").isSome = true →
      decisionAccepted ((jsonLookup fields "decision").getD Json.null) = true →
      jsonLookup fields "sources" = some (Json.arr l) →
      l.length > 10 →
      validateObj fields = Except.error ValidationError.sourcesInvalid) ∧
    validateObj [("decision", Json.str "tak"), ("summary", Json.str "s"),
      ("ai_explanatation", Json.str "e"),
      ("sources", Json.arr (List.replicate 11 (Json.str "x")))] =
      Except.error ValidationError.sourcesInvalid := by
  refine ⟨rfl, ?_, ?_, ?_, ?_, ?_, rfl, ?_, rfl, ?_, rfl⟩
  · intro fields h
    simp [validateObj, h]
  · intro fields h1 h2
    simp only [validateObj, h2, Option.isNone_none]
    simp [Option.isNone_iff_eq_none, Option.isSome_iff_ne_none.1 h1]
  · intro fields h1 h2 h3
    simp only [validateObj, h3, Option.isNone_none]
    simp [Option.isNone_iff_eq_none, Option.isSome_iff_ne_none.1 h1,
      Option.isSome_iff_ne_none.1 h2]
  · intro fields h1 h2 h3 h4
    simp only [validateObj, h4, Option.isNone_none]
    simp [Option.isNone_iff_eq_none, Option.isSome_iff_ne_none.1 h1,
      Option.isSome_iff_ne_none.1 h2, Option.isSome_iff_ne_none.1 h3]
  · intro fields h1 h2 h3 h4 h5
    simp [validateObj, Option.isNone_iff_eq_none, Option.isSome_iff_ne_none.1 h1,
      Option.isSome_iff_ne_none.1 h2, Option.isSome_iff_ne_none.1 h3,
      Option.isSome_iff_ne_none.1 h4, h5]
  · intro fields v h1 h2 h3 hacc hsrc hnl
    simp [validateObj, Option.isNone_iff_eq_none, Option.isSome_iff_ne_none.1 h1,
      Option.isSome_iff_ne_none.1 h2, Option.isSome_iff_ne_none.1 h3, hsrc, hacc]
    rcases v with s' | n | b | _ | l | o <;> simp_all
  · intro fields l h1 h2 h3 hacc hsrc hlen
    simp [validateObj, Option.isNone_iff_eq_none, Option.isSome_iff_ne_none.1 h1,
      Option.isSome_iff_ne_none.1 h2, Option.isSome_iff_ne_none.1 h3, hsrc, hacc, hlen]

/-- Closed witness for C8: the first missing-field conjunct applied to the
empty object. -/
theorem C8_validator_order_witness :
    validateObj [] = Except.error (ValidationError.missingField "decision") :=
  C8_validator_order.2.1 [] rfl

/-- Counterexample to claim C1: for `https://www.youtube.com/watch` (a
YouTube host with a `/watch` path but no `v` parameter) and for the bare
shorts path `https://youtube.com/shorts/`, no truthy video id is extracted,
and `verify_link` dispatches to the Supadata web-scrape call for the URL
instead of failing — the fallback the claim rules out. -/
theorem C1_counterexample :
    pyLower (pyUrlparse "https://www.youtube.com/watch").netloc = "www.youtube.com" ∧
    extract_youtube_video_id "https://www.youtube.com/watch" = none ∧
    fetchTarget "https://www.youtube.com/watch" =
      FetchTarget.scrape "https://www.youtube.com/watch" ∧
    pyLower (pyUrlparse "https://youtube.com/shorts/").netloc = "youtube.com" ∧
    extract_youtube_video_id "https://youtube.com/shorts/" = some "" ∧
    fetchTarget "https://youtube.com/shorts/" =
      FetchTarget.scrape "https://youtube.com/shorts/" :=
  ⟨rfl, rfl, rfl, rfl, rfl, rfl⟩

/-- Claim C1 as amended: whenever the extracted video id is not truthy
(`None`, as for a `/watch` path without a `v` parameter, or the empty
string, as for a bare `/shorts/` path) — YouTube host or not —
`verify_link` falls back to requesting scraped web-page text for the URL
rather than treating it as a hard extraction failure. -/
theorem C1_amended_web_fallback (u : String)
    (h : pyTruthy (extract_youtube_video_id u) = false) :
    fetchTarget u = FetchTarget.scrape u := by
  unfold fetchTarget
  unfold pyTruthy at h
  rcases he : extract_youtube_video_id u with _ | v
  · rfl
  · rw [he] at h
    simp at h
    simp [h]

/-- Closed witness for C1's amended theorem at the id-less watch URL. -/
theorem C1_amended_web_fallback_witness :
    fetchTarget "https://www.youtube.com/watch" =
      FetchTarget.scrape "https://www.youtube.com/watch" :=
  C1_amended_web_fallback "https://www.youtube.com/watch" rfl

/-- Claim C7: the URL classifier is a pure total function (it is a Lean
function, total by construction).  For every URL whose parsed host,
compared after lowercasing, is a youtube.com-family host, a `/watch` path
with `v=ID` yields exactly `ID`, and a `/shorts/ID` path yields exactly
`ID`; on host `youtu.be` the first path segment `ID` is returned exactly;
for every URL whose host is outside the recognized set the Web
classification (the scrape call) results.  Concrete whole-URL instances of
each pattern, including a cased host, are included. -/
theorem C7_classifier :
    (∀ u id : String,
      youtubeComHosts.contains (pyLower (pyUrlparse u).netloc) = true →
      pyStartsWith (pyUrlparse u).path "/watch" = true →
      firstQueryValue (pyUrlparse u).query "v" = some id →
      id ≠ "" →
      extract_youtube_video_id u = some id ∧ fetchTarget u = FetchTarget.transcript id) ∧
    (∀ u id : String,
      youtubeComHosts.contains (pyLower (pyUrlparse u).netloc) = true →
      pyStartsWith (pyUrlparse u).path "/watch" = false →
      pyStartsWith (pyUrlparse u).path "/shorts/" = true →
      (pySplit (pyUrlparse u).path '/').get? 2 = some id →
      id ≠ "" →
      extract_youtube_video_id u = some id ∧ fetchTarget u = FetchTarget.transcript id) ∧
    (∀ u id : String,
      pyLower (pyUrlparse u).netloc = "youtu.be" →
      (pySplit ⟨(pyUrlparse u).path.toList.dropWhile (fun c => c == '/')⟩ '/').headD "" = id →
      id ≠ "" →
      extract_youtube_video_id u = some id ∧ fetchTarget u = FetchTarget.transcript id) ∧
    (∀ u : String,
      youtubeComHosts.contains (pyLower (pyUrlparse u).netloc) = false →
      pyLower (pyUrlparse u).netloc ≠ "youtu.be" →
      extract_youtube_video_id u = none ∧ fetchTarget u = FetchTarget.scrape u) ∧
    extract_youtube_video_id "https://www.youtube.com/watch?v=dQw4w9WgXcQ" =
      some "dQw4w9WgXcQ" ∧
    fetchTarget "https://www.youtube.com/watch?v=dQw4w9WgXcQ" =
      FetchTarget.transcript "dQw4w9WgXcQ" ∧
    extract_youtube_video_id "https://m.youtube.com/shorts/Abc_-123" = some "Abc_-123" ∧
    extract_youtube_video_id "https://YouTube.COM/watch?v=xyz" = some "xyz" ∧
    extract_youtube_video_id "https://youtu.be/vid01" = some "vid01" ∧
    fetchTarget "https://youtu.be/vid01" = FetchTarget.transcript "vid01" ∧
    extract_youtube_video_id "https://example.com/news" = none ∧
    fetchTarget "https://example.com/news" = FetchTarget.scrape "https://example.com/news" := by
  refine ⟨?_, ?_, ?_, ?_, rfl, rfl, rfl, rfl, rfl, rfl, rfl, rfl⟩
  · intro u id h1 h2 h3 h4
    simp at h1
    have hx : extract_youtube_video_id u = some id := by
      simp [extract_youtube_video_id, h1, h2, h3, h4]
    exact ⟨hx, by simp [fetchTarget, hx, h4]⟩
  · intro u id h1 h2w h2s h3 h4
    simp at h1 h3
    have hx : extract_youtube_video_id u = some id := by
      simp [extract_youtube_video_id, h1, h2w, h2s, h3]
    exact ⟨hx, by simp [fetchTarget, hx, h4]⟩
  · intro u id h1 h2 h3
    simp at h2
    have hm : "youtu.be" ∉ youtubeComHosts := by decide
    have hx : extract_youtube_video_id u = some id := by
      simp [extract_youtube_video_id, h1, h2, h3, hm]
    exact ⟨hx, by simp [fetchTarget, hx, h3]⟩
  · intro u h1 h2
    simp at h1
    have hx : extract_youtube_video_id u = none := by
      simp [extract_youtube_video_id, h1, h2]
    exact ⟨hx, by simp [fetchTarget, hx]⟩

/-- Closed witness for C7 at the concrete watch URL. -/
theorem C7_classifier_witness :
    extract_youtube_video_id "https://www.youtube.com/watch?v=abc12" = some "abc12" ∧
    fetchTarget "https://www.youtube.com/watch?v=abc12" = FetchTarget.transcript "abc12" :=
  C7_classifier.1 "https://www.youtube.com/watch?v=abc12" "abc12" rfl rfl rfl (by decide)

/-- Counterexample to claim C3: a `SupadataError` whose numeric code 403 is
outside the mapping table is given the Unknown detail with the provider's
raw message, but surfaces with status 403 — the provider's own code — not
with status 502. -/
theorem C3_counterexample :
    supadataMessage 403 = none ∧
    fetchLinkContent (SupadataOutcome.err (some 403) "Forbidden") =
      Except.error ⟨403, "Supadata error: Forbidden"⟩ ∧
    (403 : Nat) ≠ 502 :=
  ⟨rfl, rfl, by decide⟩

/-- Claim C3 as amended: an extraction-provider error whose code is absent
or outside the mapping table is classified with the Unknown detail carrying
the provider's raw message; the surfaced status is 502 only when the code
is absent (or zero, `int(code or 502)`), while a present non-zero unmapped
code is passed through as the HTTP status itself. -/
theorem C3_amended_unmapped (code : Option Nat) (raw : String)
    (h : ∀ c, code = some c → supadataMessage c = none) :
    (supadataErrorResponse code raw).detail = "Supadata error: " ++ raw ∧
    (code = none → (supadataErrorResponse code raw).status = 502) ∧
    (∀ c, code = some c → c ≠ 0 → (supadataErrorResponse code raw).status = c) ∧
    fetchLinkContent (SupadataOutcome.err code raw) =
      Except.error (supadataErrorResponse code raw) := by
  refine ⟨?_, ?_, ?_, rfl⟩
  · rcases code with _ | c
    · rfl
    · simp [supadataErrorResponse, h c rfl]
  · rintro rfl
    rfl
  · rintro c rfl hc
    rcases c with _ | c
    · exact absurd rfl hc
    · rfl

/-- Closed witness for C3's amended theorem at the unmapped code 403. -/
theorem C3_amended_unmapped_witness :
    (supadataErrorResponse (some 403) "Forbidden").detail = "Supadata error: Forbidden" ∧
    (supadataErrorResponse (some 403) "Forbidden").status = 403 :=
  ⟨(C3_amended_unmapped (some 403) "Forbidden" (by intro c hc; cases hc; rfl)).1,
   (C3_amended_unmapped (some 403) "Forbidden" (by intro c hc; cases hc; rfl)).2.2.1
     403 rfl (by decide)⟩

/-- Claim C6: when the Supadata call succeeds but the resulting content
(`content or ""`, so also a `None` content attribute) is empty after
stripping whitespace, `verify_link` fails with the 422 empty-content
error — regardless of the provider's success status. -/
theorem C6_empty_content (c : Option String)
    (h : pyStrip (c.getD "") = "") :
    fetchLinkContent (SupadataOutcome.ok c) =
      Except.error ⟨422, "Nie udało się wydobyć treści z podanego URL."⟩ := by
  simp [fetchLinkContent, h]

/-- Closed witness for C6 at whitespace-only content. -/
theorem C6_empty_content_witness :
    fetchLinkContent (SupadataOutcome.ok (some " \n\t ")) =
      Except.error ⟨422, "Nie udało się wydobyć treści z podanego URL."⟩ :=
  C6_empty_content (some " \n\t ") rfl

/-- Counterexample to claim C4: a non-success inference-provider status is
not surfaced as 502 — `verify_text_disinfo` re-raises the provider's own
status code (429 here, and even a bare 500, which the claim reserves for
the missing credential). -/
theorem C4_counterexample :
    verify_text_disinfo ⟨some "key", XaiOutcome.ok 429 "rate limited" "" ContentParse.malformed⟩ =
      Except.error ⟨429, "xAI error: rate limited"⟩ ∧
    verify_text_disinfo ⟨some "key", XaiOutcome.ok 500 "upstream boom" "" ContentParse.malformed⟩ =
      Except.error ⟨500, "xAI error: upstream boom"⟩ ∧
    (429 : Nat) ≠ 502 ∧ (500 : Nat) ≠ 502 :=
  ⟨rfl, rfl, by decide, by decide⟩

/-- Claim C4 as amended: a missing credential surfaces as 500; a provider
response with status 400 or more is passed through with its own status code
and the provider body (so 500 can also arise that way); every other failure
of the request — transport exception, empty message content, malformed
JSON, schema validation — surfaces as 502. -/
theorem C4_amended_statuses :
    (∀ env : VerifyTextEnv, env.apiKey = none →
      verify_text_disinfo env = Except.error ⟨500, "Brak konfiguracji: ustaw XAI_API_KEY"⟩) ∧
    (∀ (k : String) (s : Nat) (t c : String) (p : ContentParse), s ≥ 400 →
      verify_text_disinfo ⟨some k, XaiOutcome.ok s t c p⟩ =
        Except.error ⟨s, "xAI error: " ++ t⟩) ∧
    (∀ (k m : String), verify_text_disinfo ⟨some k, XaiOutcome.exn m⟩ =
      Except.error ⟨502, "Błąd podczas analizy: " ++ m⟩) ∧
    (∀ (k : String) (s : Nat) (t c : String) (p : ContentParse) (e : HTTPError), s < 400 →
      verify_text_disinfo ⟨some k, XaiOutcome.ok s t c p⟩ = Except.error e →
      e.status = 502) := by
  refine ⟨?_, ?_, ?_, ?_⟩
  · rintro ⟨_ | k, o⟩ h
    · rfl
    · cases h
  · intro k s t c p h
    simp [verify_text_disinfo, h]
  · intro k m
    rfl
  · intro k s t c p e hs he
    simp only [verify_text_disinfo, Nat.not_le.2 hs, ge_iff_le, if_neg (Nat.not_le.2 hs)] at he
    by_cases hc : c == ""
    · simp [hc] at he
      rw [← he]
    · simp only [hc, Bool.false_eq_true, if_false] at he
      rcases hv : validateContent p with ev | j <;> rw [hv] at he
      · simp at he
        rw [← he]
        exact ValidationError.toHTTP_status ev
      · simp at he

/-- Closed witness for C4's amended theorem: missing credential yields 500. -/
theorem C4_amended_statuses_witness :
    verify_text_disinfo ⟨none, XaiOutcome.exn "boom"⟩ =
      Except.error ⟨500, "Brak konfiguracji: ustaw XAI_API_KEY"⟩ :=
  C4_amended_statuses.1 ⟨none, XaiOutcome.exn "boom"⟩ rfl

/-- Claim C9: for every media-verification request that reaches the upload
stage (image content type, credential present, temporary file written), the
transient file is removed on every exit path — upload exception, missing
request id, poll timeout, any other exception, and success — and exceeding
the 90-second polling ceiling surfaces as the 504 timeout error. -/
theorem C9_tmpfile_cleanup (env : VerifyImageEnv) (ct : String)
    (hct : env.contentType = some ct) (him : pyStartsWith ct "image/" = true)
    (hkey : env.apiKey.isSome = true) (hw : env.fileWrite = Except.ok ()) :
    rdPollTimeoutSeconds = 90 ∧
    (verify_image_with_reality_defender env).fileRemoved = true ∧
    (∀ rid : Option String, env.upload = UploadOutcome.ok rid → pyTruthy rid = true →
      env.result = ResultOutcome.timeout →
      (verify_image_with_reality_defender env).response =
        Except.error ⟨504, "Przekroczono czas oczekiwania na wynik Reality Defender"⟩) := by
  have hcne : (ct == "") = false := by
    by_cases hc : ct = ""
    · subst hc
      exact absurd him (by decide)
    · simp [hc]
  obtain ⟨k, hk⟩ := Option.isSome_iff_exists.1 hkey
  refine ⟨rfl, ?_, ?_⟩
  · rcases hu : env.upload with m | rid
    · simp [verify_image_with_reality_defender, hct, hk, hw, hu, him, hcne]
    · rcases hr : env.result with r | _ | m <;>
        simp [verify_image_with_reality_defender, hct, hk, hw, hu, hr, him, hcne] <;>
        split <;> rfl
  · intro rid hu ht hr
    simp [verify_image_with_reality_defender, hct, hk, hw, hu, hr, ht, him, hcne]

/-- Closed witness for C9 at a concrete environment whose poll times out. -/
theorem C9_tmpfile_cleanup_witness :
    (verify_image_with_reality_defender
      ⟨some "image/png", some "k", Except.ok (), UploadOutcome.ok (some "rid"),
        ResultOutcome.timeout⟩).fileRemoved = true ∧
    (verify_image_with_reality_defender
      ⟨some "image/png", some "k", Except.ok (), UploadOutcome.ok (some "rid"),
        ResultOutcome.timeout⟩).response =
      Except.error ⟨504, "Przekroczono czas oczekiwania na wynik Reality Defender"⟩ :=
  ⟨(C9_tmpfile_cleanup
      ⟨some "image/png", some "k", Except.ok (), UploadOutcome.ok (some "rid"),
        ResultOutcome.timeout⟩ "image/png" rfl (by decide) rfl rfl).2.1,
   (C9_tmpfile_cleanup
      ⟨some "image/png", some "k", Except.ok (), UploadOutcome.ok (some "rid"),
        ResultOutcome.timeout⟩ "image/png" rfl (by decide) rfl rfl).2.2
     (some "rid") rfl (by decide) rfl⟩
